import Mathlib

/-!
Verification of the OpenRadar DCA1000 data-plane driver
(`src/mmwave/dataloader/adc.py`) against its natural-language
specification.

The Python module is shallowly embedded: datagrams are lists of byte
values (`List Nat`, each `< 256`), numpy `uint16` buffers are lists of
word values, machine integers are `Nat`/`Int` with explicit wrap where it
matters, and every fallible operation returns `Except String` whose error
strings name the Python exception that the corresponding operation
raises.  All definitions below are translated from the source; the one
definition translated from the spec (the synthetic packet encoder used by
the round-trip and stream properties, since the board is the sender) is
marked as such in its doc comment.
-/

namespace OpenRadar

/-- Stream geometry dictionary `ADC_PARAMS` (adc.py lines 47-52). -/
structure AdcParams where
  chirps : Nat
  rx : Nat
  tx : Nat
  samples : Nat
  IQ : Nat
  bytes : Nat

/-- Values of `ADC_PARAMS` in the source: chirps=128, rx=4, tx=1, samples=256, IQ=1, bytes=4. -/
def ADC_PARAMS : AdcParams := ⟨128, 4, 1, 256, 1, 4⟩

/-- Source constant `MAX_PACKET_SIZE = 4096` (line 54). -/
def MAX_PACKET_SIZE : Nat := 4096

/-- Source constant `BYTES_IN_PACKET = 1456` (line 55). -/
def BYTES_IN_PACKET : Nat := 1456

/-- Source constant `BYTES_IN_FRAME` (lines 57-58): product of the ADC parameters. -/
def BYTES_IN_FRAME : Nat :=
  ADC_PARAMS.chirps * ADC_PARAMS.rx * ADC_PARAMS.tx * ADC_PARAMS.IQ *
    ADC_PARAMS.samples * ADC_PARAMS.bytes

/-- Source constant `BYTES_IN_FRAME_CLIPPED` (line 59). -/
def BYTES_IN_FRAME_CLIPPED : Nat := (BYTES_IN_FRAME / BYTES_IN_PACKET) * BYTES_IN_PACKET

/-- Source constant `PACKETS_IN_FRAME_CLIPPED` (line 61). -/
def PACKETS_IN_FRAME_CLIPPED : Nat := BYTES_IN_FRAME / BYTES_IN_PACKET

/-- Source constant `UINT16_IN_PACKET` (line 62). -/
def UINT16_IN_PACKET : Nat := BYTES_IN_PACKET / 2

/-- Source constant `UINT16_IN_FRAME` (line 63). -/
def UINT16_IN_FRAME : Nat := BYTES_IN_FRAME / 2

/-- Decoded data packet: result triple of `DCA1000._read_data_packet`.
`packetNum` is a signed 32-bit value (Python int after `struct.unpack`),
`byteCount` the unsigned 48-bit running byte counter, `packetData` the
payload as a list of uint16 words. -/
structure RawPacket where
  packetNum : Int
  byteCount : Nat
  packetData : List Nat
deriving DecidableEq, Repr

/-- Little-endian value of a byte list (least significant byte first). -/
def leNat (bs : List Nat) : Nat := bs.foldr (fun b acc => b + 256 * acc) 0

/-- Big-endian value of a byte list, as computed by `struct.unpack` with a
big-endian format: fold multiplying the accumulator by 256. -/
def beNat (bs : List Nat) : Nat := bs.foldl (fun acc b => acc * 256 + b) 0

/-- Reinterpretation of a little-endian byte list as uint16 words, as
`np.frombuffer(..., dtype=np.uint16)` does (the caller checks evenness). -/
def bytesToWords : List Nat → List Nat
  | b0 :: b1 :: rest => (b0 + 256 * b1) :: bytesToWords rest
  | _ => []

/-- Embedding of `DCA1000._read_data_packet` (lines 280-291) applied to one
datagram `data`:
`packet_num = struct.unpack('<1l', data[:4])[0]` (signed little-endian
32-bit; `struct.error` when fewer than 4 bytes are available),
`byte_count = struct.unpack('>Q', b'\x00\x00' + data[4:10][::-1])[0]`
(`struct.error` when the assembled buffer is shorter than 8 bytes, i.e.
when the datagram is shorter than 10 bytes), and
`packet_data = np.frombuffer(data[10:], dtype=np.uint16)` (`ValueError`
on an odd number of remaining bytes). -/
def read_data_packet (data : List Nat) : Except String RawPacket :=
  if (data.take 4).length ≠ 4 then
    .error "struct.error: unpack requires a buffer of 4 bytes"
  else
    let u := leNat (data.take 4)
    let packet_num : Int := if u < 2 ^ 31 then (u : Int) else (u : Int) - 2 ^ 32
    let mid := (data.drop 4).take 6
    if (0 :: 0 :: mid.reverse : List Nat).length ≠ 8 then
      .error "struct.error: unpack requires a buffer of 8 bytes"
    else
      let byte_count := beNat (0 :: 0 :: mid.reverse)
      if (data.drop 10).length % 2 ≠ 0 then
        .error "ValueError: buffer size must be a multiple of element size"
      else
        .ok ⟨packet_num, byte_count, bytesToWords (data.drop 10)⟩

/-- Numpy basic slice assignment `buf[start:stop] = src` on a 1-d uint16
array.  The slice is clipped to the array bounds as in Python; the
assignment succeeds when the source length equals the slice length, or
broadcasts when the source has exactly one element; any other shape
raises `ValueError`. -/
def npSliceAssign (buf : List Nat) (start stop : Nat) (src : List Nat) :
    Except String (List Nat) :=
  let lo := min start buf.length
  let hi := min stop buf.length
  let n := hi - lo
  if src.length = n then
    .ok (buf.take lo ++ src ++ buf.drop hi)
  else
    match src with
    | [x] => .ok (buf.take lo ++ List.replicate n x ++ buf.drop hi)
    | _ => .error "ValueError: could not broadcast"

/-- Numpy single-element assignment `buf[idx] = src` where `src` is an
array: Python negative indexing applies, an out-of-range index raises
`IndexError`, and an array source of length other than one cannot be
broadcast into the scalar cell and raises `ValueError`. -/
def npSetItem (buf : List Nat) (idx : Int) (src : List Nat) :
    Except String (List Nat) :=
  let i : Int := if idx < 0 then idx + buf.length else idx
  if i < 0 ∨ (buf.length : Int) ≤ i then .error "IndexError"
  else
    match src with
    | [x] => .ok (buf.set i.toNat x)
    | _ => .error "ValueError: could not broadcast"

/-- First loop of `DCA1000.read` (lines 221-228): datagrams are received
and decoded until one whose byte counter is a multiple of
`BYTES_IN_FRAME_CLIPPED` arrives; it is returned together with the
remaining stream.  Running out of datagrams models `socket.timeout`,
which is uncaught in `read`. -/
def read_seek : List (List Nat) → Except String (RawPacket × List (List Nat))
  | [] => .error "socket.timeout"
  | d :: rest =>
    match read_data_packet d with
    | .error e => .error e
    | .ok p =>
      if p.byteCount % BYTES_IN_FRAME_CLIPPED = 0 then .ok (p, rest)
      else read_seek rest

/-- Second loop of `DCA1000.read` (lines 231-252).  Each decoded packet
increments `packets_read`; a frame-aligned byte counter terminates the
loop returning the buffer and `lost_packets =
PACKETS_IN_FRAME_CLIPPED - packets_read`; otherwise the payload is
written to slot `(packet_num - 1) % PACKETS_IN_FRAME_CLIPPED`, with the
bare `except: pass` of the source modelled by keeping the old buffer if
the numpy assignment raises; finally the overrun guard resets
`packets_read` to 0 when it exceeds `PACKETS_IN_FRAME_CLIPPED`. -/
def read_accum (ret_frame : List Nat) (packets_read : Int) :
    List (List Nat) → Except String (List Nat × Int)
  | [] => .error "socket.timeout"
  | d :: rest =>
    match read_data_packet d with
    | .error e => .error e
    | .ok p =>
      let packets_read := packets_read + 1
      if p.byteCount % BYTES_IN_FRAME_CLIPPED = 0 then
        .ok (ret_frame, (PACKETS_IN_FRAME_CLIPPED : Int) - packets_read)
      else
        let curr_idx := ((p.packetNum - 1) % (PACKETS_IN_FRAME_CLIPPED : Int)).toNat
        let ret_frame :=
          match npSliceAssign ret_frame (curr_idx * UINT16_IN_PACKET)
              ((curr_idx + 1) * UINT16_IN_PACKET) p.packetData with
          | .ok b => b
          | .error _ => ret_frame
        let packets_read :=
          if packets_read > (PACKETS_IN_FRAME_CLIPPED : Int) then 0 else packets_read
        read_accum ret_frame packets_read rest

/-- Embedding of `DCA1000.read` (lines 196-252) over a stream of incoming
datagrams: seek a frame-aligned packet, copy its payload into words
`[0:UINT16_IN_PACKET)` of a fresh zero buffer of `UINT16_IN_FRAME` words
(this first assignment is not wrapped in try/except, so its failure
propagates), then accumulate until the next frame-aligned packet.
Returns the frame buffer together with `lost_packets`. -/
def read (stream : List (List Nat)) : Except String (List Nat × Int) :=
  match read_seek stream with
  | .error e => .error e
  | .ok (p, rest) =>
    match npSliceAssign (List.replicate UINT16_IN_FRAME 0) 0 UINT16_IN_PACKET
        p.packetData with
    | .error e => .error e
    | .ok ret_frame => read_accum ret_frame 1 rest

/-- Loop of `DCA1000.read_frames` (lines 183-194).  When the byte counter
reaches `data_end_byte`, the source computes
`next_frame_start = (data_end_byte - byte_count)/2` with Python 3 true
division, producing a float, and uses it as a numpy slice bound in
`packet_data[0:next_frame_start]`, which raises `TypeError`.  Otherwise
`ret_frame[packet_num - 1] = packet_data` assigns the payload array to a
single cell (`npSetItem`), and the loop continues; no exception is
caught in `read_frames`. -/
def read_frames_loop (ret_frame : List Nat) (packets_read : Int)
    (data_end_byte : Int) : List (List Nat) → Except String (List Nat × List Nat)
  | [] => .error "socket.timeout"
  | d :: rest =>
    match read_data_packet d with
    | .error e => .error e
    | .ok p =>
      let packets_read := packets_read + 1
      if (p.byteCount : Int) ≥ data_end_byte then
        .error "TypeError: slice indices must be integers"
      else
        match npSetItem ret_frame (p.packetNum - 1) p.packetData with
        | .error e => .error e
        | .ok b => read_frames_loop b packets_read data_end_byte rest

/-- Embedding of `DCA1000.read_frames` (lines 147-194).  A zero buffer of
`num_frames * UINT16_IN_FRAME - len(leftover)` words is allocated
(`np.zeros` raises on a negative size), the first packet is read and its
payload assigned to words `[0:UINT16_IN_PACKET)`, the target byte offset
`data_end_byte = data_start_byte + num_frames * BYTES_IN_FRAME` is
derived from the first byte counter (`data_start_byte = byte_count -
BYTES_IN_PACKET - 2*len(leftover)`; the misalignment warning is only a
print), and the loop above runs with `packets_read = 1`. -/
def read_frames (leftover : List Nat) (num_frames : Nat)
    (stream : List (List Nat)) : Except String (List Nat × List Nat) :=
  let uint16_preread := leftover.length
  let alloc : Int := (num_frames * UINT16_IN_FRAME : Nat) - (uint16_preread : Int)
  if alloc < 0 then .error "ValueError: negative dimensions are not allowed"
  else
    match stream with
    | [] => .error "socket.timeout"
    | d :: rest =>
      match read_data_packet d with
      | .error e => .error e
      | .ok p =>
        match npSliceAssign (List.replicate alloc.toNat 0) 0 UINT16_IN_PACKET
            p.packetData with
        | .error e => .error e
        | .ok ret_frame =>
          let data_start_byte : Int :=
            (p.byteCount : Int) - (BYTES_IN_PACKET : Nat) - 2 * uint16_preread
          let data_end_byte : Int := data_start_byte + num_frames * BYTES_IN_FRAME
          read_frames_loop ret_frame 1 data_end_byte rest

/-- Reinterpretation of a uint16 word as a signed int16 value, as
`ndarray.astype(np.int16)` does. -/
def int16 (w : Nat) : Int := if w < 2 ^ 15 then (w : Int) else (w : Int) - 2 ^ 16

/-- Embedding of `DCA1000.organize_frames` (lines 347-366).  The flat
uint16 buffer is cast to int16, reshaped in C order to
`(num_frames, chirps_per_frame, samples_per_chirp, complexity, num_rx)`
(numpy raises `ValueError` when the element count does not match),
component 0 of the complexity axis becomes the real part and component 1
the imaginary part (an `IndexError` when that axis is shorter than 2),
and the axes are transposed by `(0, 1, 3, 2)` so that the result is
indexed by `(frame, chirp, rx, sample)`.  A complex entry is modelled as
the pair (real, imaginary). -/
def organize_frames (raw_data : List Nat) (num_frames chirps_per_frame num_rx
    samples_per_chirp complexity : Nat) :
    Except String (List (List (List (List (Int × Int))))) :=
  if raw_data.length ≠ num_frames * chirps_per_frame * samples_per_chirp *
      complexity * num_rx then
    .error "ValueError: cannot reshape array"
  else if complexity < 2 then
    .error "IndexError: index 1 is out of bounds"
  else
    .ok <|
      (List.range num_frames).map fun f =>
        (List.range chirps_per_frame).map fun c =>
          (List.range num_rx).map fun r =>
            (List.range samples_per_chirp).map fun s =>
              (int16 (raw_data.getD
                ((((f * chirps_per_frame + c) * samples_per_chirp + s) *
                  complexity + 0) * num_rx + r) 0),
               int16 (raw_data.getD
                ((((f * chirps_per_frame + c) * samples_per_chirp + s) *
                  complexity + 1) * num_rx + r) 0))

/-- Command-code enumeration `CMD` (lines 23-37); each code carries its
4-hex-character wire value. -/
inductive CMD
  | RESET_FPGA_CMD_CODE
  | RESET_AR_DEV_CMD_CODE
  | CONFIG_FPGA_GEN_CMD_CODE
  | CONFIG_EEPROM_CMD_CODE
  | RECORD_START_CMD_CODE
  | RECORD_STOP_CMD_CODE
  | PLAYBACK_START_CMD_CODE
  | PLAYBACK_STOP_CMD_CODE
  | SYSTEM_CONNECT_CMD_CODE
  | SYSTEM_ERROR_CMD_CODE
  | CONFIG_PACKET_DATA_CMD_CODE
  | CONFIG_DATA_MODE_AR_DEV_CMD_CODE
  | INIT_FPGA_PLAYBACK_CMD_CODE
  | READ_FPGA_VERSION_CMD_CODE
deriving DecidableEq

/-- Hex-string value of each command code (`CMD` enum values, also used
by `str(cmd)`). -/
def CMD.value : CMD → String
  | .RESET_FPGA_CMD_CODE => "0100"
  | .RESET_AR_DEV_CMD_CODE => "0200"
  | .CONFIG_FPGA_GEN_CMD_CODE => "0300"
  | .CONFIG_EEPROM_CMD_CODE => "0400"
  | .RECORD_START_CMD_CODE => "0500"
  | .RECORD_STOP_CMD_CODE => "0600"
  | .PLAYBACK_START_CMD_CODE => "0700"
  | .PLAYBACK_STOP_CMD_CODE => "0800"
  | .SYSTEM_CONNECT_CMD_CODE => "0900"
  | .SYSTEM_ERROR_CMD_CODE => "0a00"
  | .CONFIG_PACKET_DATA_CMD_CODE => "0b00"
  | .CONFIG_DATA_MODE_AR_DEV_CMD_CODE => "0c00"
  | .INIT_FPGA_PLAYBACK_CMD_CODE => "0d00"
  | .READ_FPGA_VERSION_CMD_CODE => "0e00"

/-- Source constant `CONFIG_HEADER = '5aa5'` (line 44). -/
def CONFIG_HEADER : String := "5aa5"

/-- Source constant `CONFIG_FOOTER = 'aaee'` (line 46). -/
def CONFIG_FOOTER : String := "aaee"

/-- Value of a single hex digit character, or `none` for a non-hex
character (as `codecs.decode(..., 'hex')` would reject it). -/
def hexVal (c : Char) : Option Nat :=
  if '0' ≤ c ∧ c ≤ '9' then some (c.toNat - 48)
  else if 'a' ≤ c ∧ c ≤ 'f' then some (c.toNat - 87)
  else if 'A' ≤ c ∧ c ≤ 'F' then some (c.toNat - 55)
  else none

/-- Hex decoding of a character list into bytes, two hex digits per byte;
`none` on odd length or a non-hex character, as `codecs.decode(s, 'hex')`
raises in those cases. -/
def hexDecode : List Char → Option (List Nat)
  | [] => some []
  | [_] => none
  | c1 :: c2 :: rest =>
    match hexVal c1, hexVal c2, hexDecode rest with
    | some h, some l, some bs => some ((16 * h + l) :: bs)
    | _, _, _ => none

/-- Message built by `DCA1000._send_command` (line 272):
`codecs.decode(''.join((CONFIG_HEADER, str(cmd), length, body,
CONFIG_FOOTER)), 'hex')`. -/
def send_command_msg (cmd : CMD) (length body : String) : Option (List Nat) :=
  hexDecode (CONFIG_HEADER ++ cmd.value ++ length ++ body ++ CONFIG_FOOTER).data

/-- Two raw bytes of each command code as they appear on the wire (the
16-bit code in little-endian order), per the spec's command enumeration. -/
def cmdCodeBytes : CMD → List Nat
  | .RESET_FPGA_CMD_CODE => [1, 0]
  | .RESET_AR_DEV_CMD_CODE => [2, 0]
  | .CONFIG_FPGA_GEN_CMD_CODE => [3, 0]
  | .CONFIG_EEPROM_CMD_CODE => [4, 0]
  | .RECORD_START_CMD_CODE => [5, 0]
  | .RECORD_STOP_CMD_CODE => [6, 0]
  | .PLAYBACK_START_CMD_CODE => [7, 0]
  | .PLAYBACK_STOP_CMD_CODE => [8, 0]
  | .SYSTEM_CONNECT_CMD_CODE => [9, 0]
  | .SYSTEM_ERROR_CMD_CODE => [10, 0]
  | .CONFIG_PACKET_DATA_CMD_CODE => [11, 0]
  | .CONFIG_DATA_MODE_AR_DEV_CMD_CODE => [12, 0]
  | .INIT_FPGA_PLAYBACK_CMD_CODE => [13, 0]
  | .READ_FPGA_VERSION_CMD_CODE => [14, 0]

/-- Little-endian byte decomposition of a number into `k` bytes. -/
def natToLEBytes : Nat → Nat → List Nat
  | _, 0 => []
  | n, k + 1 => n % 256 :: natToLEBytes (n / 256) k

/-- Modelled from the spec: wire format of a data packet (spec section 6,
"SEQ(4, LE, signed) then BYTECOUNT(6, LE, unsigned) then SAMPLES(2k, LE,
uint16)").  The board-side encoder is not part of the repository, so this
synthetic encoder follows the documented wire format; it is used to build
the synthetic streams of the reassembly properties and the codec
round-trip. -/
def encodePacket (s : Int) (b : Nat) (payload : List Nat) : List Nat :=
  natToLEBytes (s % (2 ^ 32 : Int)).toNat 4 ++ natToLEBytes b 6 ++
    payload.flatMap (fun w => [w % 256, w / 256])

/-- Datagram of a `RawPacket` under the synthetic spec encoder. -/
def encP (p : RawPacket) : List Nat := encodePacket p.packetNum p.byteCount p.packetData

/-- Header well-formedness of a synthetic packet: sequence number in the
signed 32-bit range and byte counter in the unsigned 48-bit range. -/
def wfPacket (p : RawPacket) : Prop :=
  -(2 ^ 31) ≤ p.packetNum ∧ p.packetNum < 2 ^ 31 ∧ p.byteCount < 2 ^ 48

/-- Destination slot of a packet in `read_accum`:
`(packet_num - 1) % PACKETS_IN_FRAME_CLIPPED`. -/
def midSlot (p : RawPacket) : Nat :=
  ((p.packetNum - 1) % (PACKETS_IN_FRAME_CLIPPED : Int)).toNat

/-- Mid-frame well-formedness: well-formed header, a full 728-word
payload, and a byte counter that is not frame-aligned. -/
def wfMid (p : RawPacket) : Prop :=
  wfPacket p ∧ p.packetData.length = UINT16_IN_PACKET ∧
    p.byteCount % BYTES_IN_FRAME_CLIPPED ≠ 0

/-- Single step of `read_accum` on a decoded, non-aligned packet: bump
`packets_read`, write the payload into the packet's slot (keeping the old
buffer when the numpy assignment raises), apply the overrun reset. -/
def accumStep (st : List Nat × Int) (p : RawPacket) : List Nat × Int :=
  let packets_read := st.2 + 1
  let curr_idx := ((p.packetNum - 1) % (PACKETS_IN_FRAME_CLIPPED : Int)).toNat
  let buf :=
    match npSliceAssign st.1 (curr_idx * UINT16_IN_PACKET)
        ((curr_idx + 1) * UINT16_IN_PACKET) p.packetData with
    | .ok b => b
    | .error _ => st.1
  (buf, if packets_read > (PACKETS_IN_FRAME_CLIPPED : Int) then 0 else packets_read)

/-- Synthetic in-order packets for payload list `ps` starting at packet
index `i`: packet `i` has sequence number `i + 1` and byte counter
`i * BYTES_IN_PACKET` (the counter counts payload bytes sent before the
packet), so counters increment by exactly `BYTES_IN_PACKET` with no gap. -/
def inorderMids : Nat → List (List Nat) → List RawPacket
  | _, [] => []
  | i, payload :: ps => ⟨(i : Int) + 1, i * BYTES_IN_PACKET, payload⟩ :: inorderMids (i + 1) ps


/-- Successful slot write: the buffer with `src` in slot `i`. -/
def writeSlot (buf : List Nat) (i : Nat) (src : List Nat) : List Nat :=
  buf.take (i * UINT16_IN_PACKET) ++ src ++ buf.drop ((i + 1) * UINT16_IN_PACKET)

/-- Payloads of the concrete zero-loss synthetic stream used by C1: 360 packets of 728 one-words. -/
def C1ps : List (List Nat) := List.replicate 360 (List.replicate 728 1)

/-- Concrete synthetic in-order datagram stream for C1 (sequence numbers from 1, byte counters from 0 stepping by `BYTES_IN_PACKET`), ending with the next frame-aligned packet. -/
def C1stream : List (List Nat) := (inorderMids 0 (C1ps ++ [[]])).map encP

/-- Payload of the frame-aligned first packet of the C5 streams. -/
def C5pay0 : List Nat := List.replicate 728 0

/-- Payload of the second (slot 1) packet of the C5 streams; all ones so that its loss is visible. -/
def C5pay1 : List Nat := List.replicate 728 1

/-- Payloads of the remaining 358 packets of the C5 streams. -/
def C5rest : List (List Nat) := List.replicate 358 (List.replicate 728 0)

/-- All 360 frame payloads of the C5 streams. -/
def C5ps : List (List Nat) := C5pay0 :: C5pay1 :: C5rest

/-- Frame-aligned first datagram of the C5 in-order stream. -/
def C5d0 : List Nat := encP ⟨1, 0, C5pay0⟩

/-- Second datagram (slot 1, byte counter `BYTES_IN_PACKET`) of the C5 in-order stream. -/
def C5d1 : List Nat := encP ⟨2, BYTES_IN_PACKET, C5pay1⟩

/-- Remaining datagrams of the C5 streams, ending with the next frame-aligned packet. -/
def C5ds : List (List Nat) := (inorderMids 2 (C5rest ++ [[]])).map encP

/-- In-order delivery of the C5 stream. -/
def C5s1 : List (List Nat) := C5d0 :: C5d1 :: C5ds

/-- Permuted delivery of the C5 stream: the first two datagrams swapped. -/
def C5s2 : List (List Nat) := C5d1 :: C5d0 :: C5ds
end OpenRadar

namespace OpenRadar

/-! Arithmetic facts about the byte-level codec. -/

lemma natToLEBytes_length (n k : Nat) : (natToLEBytes n k).length = k := by
  induction k generalizing n with
  | zero => rfl
  | succ k ih => simp [natToLEBytes, ih]

lemma leNat_cons (x : Nat) (l : List Nat) : leNat (x :: l) = x + 256 * leNat l := by
  simp [leNat]

lemma leNat_natToLEBytes (n k : Nat) : leNat (natToLEBytes n k) = n % 256 ^ k := by
  induction k generalizing n with
  | zero => simp [natToLEBytes, leNat, Nat.mod_one]
  | succ k ih =>
    rw [natToLEBytes, leNat_cons, ih, pow_succ, mul_comm (256 ^ k) 256, Nat.mod_mul]

lemma beNat_zero_cons (l : List Nat) : beNat (0 :: l) = beNat l := by
  simp [beNat]

lemma beNat_reverse (l : List Nat) : beNat l.reverse = leNat l := by
  induction l with
  | nil => rfl
  | cons x l ih =>
    rw [List.reverse_cons, leNat_cons, ← ih]
    simp [beNat, List.foldl_append]
    ring

lemma bytesToWords_encode (payload : List Nat) :
    bytesToWords (payload.flatMap fun w => [w % 256, w / 256]) = payload := by
  induction payload with
  | nil => rfl
  | cons w ps ih =>
    simp only [List.flatMap_cons, List.cons_append, List.nil_append, bytesToWords, ih]
    congr 1
    omega

lemma length_encodeWords (payload : List Nat) :
    (payload.flatMap fun w => [w % 256, w / 256]).length = 2 * payload.length := by
  induction payload with
  | nil => rfl
  | cons w ps ih =>
    simp only [List.flatMap_cons, List.length_append, List.length_cons, ih,
      List.length_nil, List.length_cons]
    omega

/-- Round trip of the packet codec: decoding an encoded packet with a
signed 32-bit sequence number and a 48-bit byte counter recovers the
packet exactly. -/
lemma read_data_packet_encP (p : RawPacket) (h1 : -(2 ^ 31) ≤ p.packetNum)
    (h2 : p.packetNum < 2 ^ 31) (h3 : p.byteCount < 2 ^ 48) :
    read_data_packet (encP p) = .ok p := by
  obtain ⟨s, b, payload⟩ := p
  simp only [encP, encodePacket] at *
  set A := natToLEBytes (s % (2 ^ 32 : Int)).toNat 4 with hA
  set B := natToLEBytes b 6 with hB
  set C := payload.flatMap (fun w => [w % 256, w / 256]) with hC
  have hAl : A.length = 4 := natToLEBytes_length _ _
  have hBl : B.length = 6 := natToLEBytes_length _ _
  have htake : (A ++ B ++ C).take 4 = A := by
    rw [List.append_assoc, ← hAl, List.take_left]
  have hdrop4 : (A ++ B ++ C).drop 4 = B ++ C := by
    rw [List.append_assoc, ← hAl, List.drop_left]
  have htake6 : (B ++ C).take 6 = B := by rw [← hBl, List.take_left]
  have hdrop10 : (A ++ B ++ C).drop 10 = C := by
    have hABl : (A ++ B).length = 10 := by simp [hAl, hBl]
    rw [← hABl, List.drop_left]
  have ht0 : (0 : Int) ≤ s % (2 ^ 32 : Int) := Int.emod_nonneg _ (by norm_num)
  have ht1 : s % (2 ^ 32 : Int) < 2 ^ 32 := Int.emod_lt_of_pos _ (by norm_num)
  have huA : leNat A = (s % (2 ^ 32 : Int)).toNat := by
    rw [hA, leNat_natToLEBytes]
    exact Nat.mod_eq_of_lt (by norm_num at ht1 ⊢; omega)
  have hbB : beNat (0 :: 0 :: B.reverse) = b := by
    rw [beNat_zero_cons, beNat_zero_cons, beNat_reverse, hB, leNat_natToLEBytes]
    exact Nat.mod_eq_of_lt (by norm_num at h3 ⊢; omega)
  have hCl : C.length = 2 * payload.length := length_encodeWords payload
  unfold read_data_packet
  rw [htake, hdrop4, htake6, hdrop10, hAl]
  rw [if_neg (by omega), if_neg (by simp [hBl]), if_neg (by omega)]
  rw [huA, hbB, hC, bytesToWords_encode]
  have hs : (if (s % (2 ^ 32 : Int)).toNat < 2 ^ 31
      then ((s % (2 ^ 32 : Int)).toNat : Int)
      else ((s % (2 ^ 32 : Int)).toNat : Int) - 2 ^ 32) = s := by
    have : ((s % (2 ^ 32 : Int)).toNat : Int) = s % 2 ^ 32 := Int.toNat_of_nonneg ht0
    split <;> norm_num at * <;> omega
  rw [hs]

/-- C6: for every signed 32-bit sequence number `s` and byte counter
`b < 2^48`, encoding a packet header in the documented wire format and
decoding the datagram with the packet codec recovers exactly `(s, b)`
(and the payload). -/
theorem C6_codec_round_trip (s : Int) (b : Nat) (payload : List Nat)
    (h1 : -(2 ^ 31) ≤ s) (h2 : s < 2 ^ 31) (h3 : b < 2 ^ 48) :
    read_data_packet (encodePacket s b payload) = .ok ⟨s, b, payload⟩ :=
  read_data_packet_encP ⟨s, b, payload⟩ h1 h2 h3

theorem C6_codec_round_trip_witness :
    read_data_packet (encodePacket (-5) 281474976710655 [7, 65535]) =
      .ok ⟨-5, 281474976710655, [7, 65535]⟩ :=
  C6_codec_round_trip (-5) 281474976710655 [7, 65535] (by norm_num) (by norm_num)
    (by norm_num)

end OpenRadar

namespace OpenRadar

/-- Numeral values of the derived constants, for reuse in proofs. -/
lemma constants_eval :
    BYTES_IN_PACKET = 1456 ∧ BYTES_IN_FRAME = 524288 ∧
    BYTES_IN_FRAME_CLIPPED = 524160 ∧ PACKETS_IN_FRAME_CLIPPED = 360 ∧
    UINT16_IN_PACKET = 728 ∧ UINT16_IN_FRAME = 262144 := by
  refine ⟨rfl, rfl, rfl, rfl, rfl, rfl⟩

/-- C8: for the fixed stream parameters the derived constants evaluate to
`frameBytes = 524288`, `frameBytesClipped = 524160`,
`packetsPerFrameClipped = 360`, and `frameBytesClipped` is a multiple of
`packetBytes` not exceeding `frameBytes`. -/
theorem C8_derived_constants :
    BYTES_IN_FRAME = 524288 ∧ BYTES_IN_FRAME_CLIPPED = 524160 ∧
    PACKETS_IN_FRAME_CLIPPED = 360 ∧
    BYTES_IN_FRAME_CLIPPED % BYTES_IN_PACKET = 0 ∧
    BYTES_IN_FRAME_CLIPPED ≤ BYTES_IN_FRAME := by
  refine ⟨rfl, rfl, rfl, rfl, by decide⟩

/-- Slot-sized slice assignment always succeeds when the slice lies inside
the buffer and the source has exactly `UINT16_IN_PACKET` words. -/
lemma npSliceAssign_ok (buf src : List Nat) (i : Nat)
    (hle : (i + 1) * UINT16_IN_PACKET ≤ buf.length)
    (hsrc : src.length = UINT16_IN_PACKET) :
    npSliceAssign buf (i * UINT16_IN_PACKET) ((i + 1) * UINT16_IN_PACKET) src =
      .ok (buf.take (i * UINT16_IN_PACKET) ++ src ++
        buf.drop ((i + 1) * UINT16_IN_PACKET)) := by
  have hU : UINT16_IN_PACKET = 728 := rfl
  rw [hU] at hle hsrc ⊢
  simp only [npSliceAssign]
  rw [Nat.min_eq_left (by omega), Nat.min_eq_left (by omega), if_pos (by omega)]

/-- C10: in the single-frame read, for every packet whose payload is
exactly `UINT16_IN_PACKET` (728) words, the slot write is in bounds: the
slot index `(packet_num - 1) % PACKETS_IN_FRAME_CLIPPED` lies below
`PACKETS_IN_FRAME_CLIPPED`, the 360 slots of 728 words fit inside the
`UINT16_IN_FRAME`-word buffer, and the numpy slice assignment used by
`read_accum` succeeds, so the defensive except branch is unreachable for
such packets. -/
theorem C10_slot_write_within_bounds (pn : Int) (pd buf : List Nat)
    (hbuf : buf.length = UINT16_IN_FRAME) (hpd : pd.length = UINT16_IN_PACKET) :
    ((pn - 1) % (PACKETS_IN_FRAME_CLIPPED : Int)).toNat < PACKETS_IN_FRAME_CLIPPED ∧
    PACKETS_IN_FRAME_CLIPPED * UINT16_IN_PACKET ≤ UINT16_IN_FRAME ∧
    ∃ buf2,
      npSliceAssign buf
        (((pn - 1) % (PACKETS_IN_FRAME_CLIPPED : Int)).toNat * UINT16_IN_PACKET)
        ((((pn - 1) % (PACKETS_IN_FRAME_CLIPPED : Int)).toNat + 1) * UINT16_IN_PACKET)
        pd = .ok buf2 := by
  have hP : PACKETS_IN_FRAME_CLIPPED = 360 := rfl
  have hmod0 : (0 : Int) ≤ (pn - 1) % (PACKETS_IN_FRAME_CLIPPED : Int) :=
    Int.emod_nonneg _ (by rw [hP]; norm_num)
  have hmod1 : (pn - 1) % (PACKETS_IN_FRAME_CLIPPED : Int) <
      (PACKETS_IN_FRAME_CLIPPED : Int) :=
    Int.emod_lt_of_pos _ (by rw [hP]; norm_num)
  have hidx : ((pn - 1) % (PACKETS_IN_FRAME_CLIPPED : Int)).toNat <
      PACKETS_IN_FRAME_CLIPPED := by omega
  refine ⟨hidx, by decide, ?_⟩
  refine ⟨_, npSliceAssign_ok buf pd _ ?_ hpd⟩
  have hU : UINT16_IN_PACKET = 728 := rfl
  have hF : UINT16_IN_FRAME = 262144 := rfl
  rw [hU, hbuf, hF]
  rw [hP] at hidx
  omega

theorem C10_slot_write_within_bounds_witness :
    (((-7 : Int) - 1) % (PACKETS_IN_FRAME_CLIPPED : Int)).toNat <
      PACKETS_IN_FRAME_CLIPPED ∧
    PACKETS_IN_FRAME_CLIPPED * UINT16_IN_PACKET ≤ UINT16_IN_FRAME ∧
    ∃ buf2,
      npSliceAssign (List.replicate 262144 0)
        ((((-7 : Int) - 1) % (PACKETS_IN_FRAME_CLIPPED : Int)).toNat * UINT16_IN_PACKET)
        (((((-7 : Int) - 1) % (PACKETS_IN_FRAME_CLIPPED : Int)).toNat + 1) *
          UINT16_IN_PACKET)
        (List.replicate 728 3) = .ok buf2 :=
  C10_slot_write_within_bounds (-7) (List.replicate 728 3) (List.replicate 262144 0)
    (by rw [List.length_replicate]; rfl) (by rw [List.length_replicate]; rfl)

/-- C2 counterexample: reorganizing `[1..8]` with
`frames=1, chirpsPerFrame=2, numRx=2, samplesPerChirp=1, iqComponents=2`
does not produce `(0,0,0,0) = 1+2i` and `(0,1,1,0) = 7+8i` as the claim
states; the source pairs component 0 with component 1 across the rx-minor
layout, giving `1+3i` and `6+8i` instead. -/
theorem C2_counterexample :
    ¬ ((organize_frames [1, 2, 3, 4, 5, 6, 7, 8] 1 2 2 1 2).toOption.map
        (fun r => ((((r.getD 0 []).getD 0 []).getD 0 []).getD 0 (0, 0),
                   (((r.getD 0 []).getD 1 []).getD 1 []).getD 0 (0, 0)))
      = some ((1, 2), (7, 8))) := by
  decide

/-- C2 amended: with the source's reshape order
`(frames, chirps, samples, iqComponents, rx)` and transposition
`(0, 1, 3, 2)`, the input `[1..8]` yields element `(0,0,0,0) = 1+3i` and
element `(0,1,1,0) = 6+8i`. -/
theorem C2_organize_frames_amended :
    (organize_frames [1, 2, 3, 4, 5, 6, 7, 8] 1 2 2 1 2).toOption.map
        (fun r => ((((r.getD 0 []).getD 0 []).getD 0 []).getD 0 (0, 0),
                   (((r.getD 0 []).getD 1 []).getD 1 []).getD 0 (0, 0)))
      = some ((1, 3), (6, 8)) := by
  decide

/-- C7 amended: a datagram shorter than 10 bytes makes the packet decoder
fail with a struct unpack error, and the single-frame read loop does not
drop it and continue: the error propagates out of `read` uncaught. -/
theorem C7_short_datagram_crashes_read (d : List Nat) (rest : List (List Nat))
    (h : d.length < 10) :
    (∃ e, read_data_packet d = .error e) ∧ ∃ e, read (d :: rest) = .error e := by
  have hd : ∃ e, read_data_packet d = .error e := by
    unfold read_data_packet
    by_cases h4 : (d.take 4).length = 4
    · rw [if_neg (by omega)]
      have hmid : ((d.drop 4).take 6).length = d.length - 4 := by
        rw [List.length_take, List.length_drop]
        have := List.length_take 4 d
        omega
      rw [if_pos]
      · exact ⟨_, rfl⟩
      · simp only [List.length_cons, List.length_reverse, hmid]
        have := List.length_take 4 d
        omega
    · rw [if_pos h4]
      exact ⟨_, rfl⟩
  obtain ⟨e, he⟩ := hd
  refine ⟨⟨e, he⟩, ⟨e, ?_⟩⟩
  unfold read read_seek
  rw [he]

theorem C7_short_datagram_crashes_read_witness :
    (∃ e, read_data_packet [1, 2, 3] = .error e) ∧
    ∃ e, read ([1, 2, 3] :: []) = .error e :=
  C7_short_datagram_crashes_read [1, 2, 3] [] (by norm_num)

end OpenRadar

namespace OpenRadar

/-- Hex decoding distributes over concatenation when the left part decodes. -/
lemma hexDecode_append : ∀ (xs ys : List Char) (bs : List Nat),
    hexDecode xs = some bs →
    hexDecode (xs ++ ys) = (hexDecode ys).map (fun cs => bs ++ cs)
  | [], ys, bs, h => by
    simp only [hexDecode, Option.some.injEq] at h
    subst h
    simp only [List.nil_append]
    cases hexDecode ys <;> rfl
  | [c], ys, bs, h => by simp [hexDecode] at h
  | c1 :: c2 :: rest, ys, bs, h => by
    simp only [hexDecode] at h
    cases h1 : hexVal c1 <;> rw [h1] at h
    · simp at h
    cases h2 : hexVal c2 <;> rw [h2] at h
    · simp at h
    cases h3 : hexDecode rest <;> rw [h3] at h
    · simp at h
    simp only [Option.some.injEq] at h
    subst h
    have hr := hexDecode_append rest ys _ h3
    cases hys : hexDecode ys <;> rw [hys] at hr <;>
      simp only [Option.map] at hr <;>
      simp only [List.cons_append, hexDecode, List.append_eq, h1, h2, hr, hys] <;>
      rfl

/-- Hex value of each command code string is its two wire bytes. -/
lemma hexDecode_cmd (cmd : CMD) : hexDecode cmd.value.data = some (cmdCodeBytes cmd) := by
  cases cmd <;> decide

/-- C9: the command builder produces exactly the concatenation of the
2-byte magic header `5A A5`, the 2-byte command code, the 2-byte length
field, the body bytes, and the 2-byte magic footer `AA EE`, for every
command code and every length field and body that are valid hex strings. -/
theorem C9_command_wire_format (cmd : CMD) (length body : String) (L B : List Nat)
    (hL : hexDecode length.data = some L) (hB : hexDecode body.data = some B) :
    send_command_msg cmd length body =
      some ([90, 165] ++ cmdCodeBytes cmd ++ L ++ B ++ [170, 238]) := by
  have hH : hexDecode CONFIG_HEADER.data = some [90, 165] := by decide
  have hF : hexDecode CONFIG_FOOTER.data = some [170, 238] := by decide
  have h1 : hexDecode (CONFIG_HEADER.data ++ cmd.value.data) =
      some ([90, 165] ++ cmdCodeBytes cmd) := by
    rw [hexDecode_append _ _ _ hH, hexDecode_cmd]
    rfl
  have h2 : hexDecode (CONFIG_HEADER.data ++ cmd.value.data ++ length.data) =
      some ([90, 165] ++ cmdCodeBytes cmd ++ L) := by
    rw [hexDecode_append _ _ _ h1, hL]
    rfl
  have h3 : hexDecode (CONFIG_HEADER.data ++ cmd.value.data ++ length.data ++
      body.data) = some ([90, 165] ++ cmdCodeBytes cmd ++ L ++ B) := by
    rw [hexDecode_append _ _ _ h2, hB]
    rfl
  unfold send_command_msg
  rw [String.data_append, String.data_append, String.data_append,
    String.data_append, hexDecode_append _ _ _ h3, hF]
  rfl

theorem C9_command_wire_format_witness :
    send_command_msg CMD.CONFIG_FPGA_GEN_CMD_CODE "0600" "01010102031e" =
      some ([90, 165] ++ cmdCodeBytes CMD.CONFIG_FPGA_GEN_CMD_CODE ++ [6, 0] ++
        [1, 1, 1, 2, 3, 30] ++ [170, 238]) :=
  C9_command_wire_format CMD.CONFIG_FPGA_GEN_CMD_CODE "0600" "01010102031e"
    [6, 0] [1, 1, 1, 2, 3, 30] (by decide) (by decide)

end OpenRadar

namespace OpenRadar

end OpenRadar

namespace OpenRadar

/-- Assigning an array of length other than one to a single in-range cell
raises the numpy broadcast error. -/
lemma npSetItem_array_error (buf : List Nat) (idx : Int) (src : List Nat)
    (h0 : 0 ≤ idx) (hi : idx < (buf.length : Int)) (hlen : src.length ≠ 1) :
    npSetItem buf idx src = .error "ValueError: could not broadcast" := by
  have hneg : ¬ idx < 0 := by omega
  simp only [npSetItem, if_neg hneg]
  rw [if_neg (by omega)]
  match src, hlen with
  | [], _ => rfl
  | [x], hlen => exact absurd rfl hlen
  | x :: y :: rest, _ => rfl

lemma read_frames_crashes (p1 p2 : List Nat) (ps : List (List Nat)) (nf : Nat)
    (hnf : 1 ≤ nf) (h1 : p1.length = UINT16_IN_PACKET)
    (h2 : p2.length = UINT16_IN_PACKET) :
    read_frames [] nf ((inorderMids 1 (p1 :: p2 :: ps)).map encP) =
      .error "ValueError: could not broadcast" := by
  have hU : UINT16_IN_PACKET = 728 := rfl
  have hF : UINT16_IN_FRAME = 262144 := rfl
  have hB : BYTES_IN_PACKET = 1456 := rfl
  have hBF : BYTES_IN_FRAME = 524288 := rfl
  simp only [inorderMids, List.map_cons]
  unfold read_frames
  simp only [List.length_nil, Nat.cast_zero, sub_zero, hB, hF, hU, hBF]
  have hq1 := read_data_packet_encP ⟨2, 1456, p1⟩ (by norm_num) (by norm_num) (by norm_num)
  have hq2 := read_data_packet_encP ⟨3, 2912, p2⟩ (by norm_num) (by norm_num) (by norm_num)
  have hnn : (262144 : Int) ≤ (nf : Int) * 262144 :=
    le_mul_of_one_le_left (by norm_num) (by exact_mod_cast hnf)
  have hpre := npSliceAssign_ok (List.replicate (((nf : Int) * 262144).toNat) 0) p1 0
    (by rw [List.length_replicate, hU]; omega) h1
  simp only [Nat.zero_mul, Nat.zero_add, Nat.one_mul, zero_add, one_mul, zero_mul,
    List.take_zero, List.nil_append, hU] at hpre
  norm_num
  rw [if_neg (by omega)]
  rw [hq1]
  simp only
  rw [hpre]
  simp only
  unfold read_frames_loop
  rw [hq2]
  simp only
  rw [if_neg (by
    have hg : (524288 : Int) ≤ (nf : Int) * 524288 :=
      le_mul_of_one_le_left (by norm_num) (by exact_mod_cast hnf)
    omega)]
  rw [npSetItem_array_error _ _ _ (by norm_num)
    (by
      simp only [List.length_append, List.length_replicate]
      have h1l : p1.length = 728 := by rw [h1, hU]
      push_cast
      omega)
    (by rw [h2, hU]; omega)]

/-- C3: in a multi-frame batched read over in-order full-size packets, the
source never reaches the documented packet split: the element assignment
`ret_frame[packet_num - 1] = packet_data` raises the numpy broadcast
error on the second packet (and the split line itself would raise
`TypeError` from the float slice bound), so `read_frames` returns an
error instead of a FrameBuffer and LeftoverBuffer. -/
theorem C3_boundary_split_crashes (p1 p2 : List Nat) (ps : List (List Nat))
    (h1 : p1.length = UINT16_IN_PACKET) (h2 : p2.length = UINT16_IN_PACKET) :
    read_frames [] 1 ((inorderMids 1 (p1 :: p2 :: ps)).map encP) =
      .error "ValueError: could not broadcast" :=
  read_frames_crashes p1 p2 ps 1 (by norm_num) h1 h2

theorem C3_boundary_split_crashes_witness :
    read_frames [] 1 ((inorderMids 1 (List.replicate 728 0 ::
        List.replicate 728 1 :: [])).map encP) =
      .error "ValueError: could not broadcast" :=
  C3_boundary_split_crashes (List.replicate 728 0) (List.replicate 728 1) []
    (by rw [List.length_replicate]; rfl) (by rw [List.length_replicate]; rfl)

/-- C4: both a 1-frame and a 2-frame `read_frames` call on the same
continuous in-order stream raise the numpy broadcast error before
producing any frame or leftover, so the chained-leftover reads cannot
produce the frames the claim describes. -/
theorem C4_chained_reads_crash (p1 p2 : List Nat) (ps : List (List Nat))
    (h1 : p1.length = UINT16_IN_PACKET) (h2 : p2.length = UINT16_IN_PACKET) :
    read_frames [] 1 ((inorderMids 1 (p1 :: p2 :: ps)).map encP) =
      .error "ValueError: could not broadcast" ∧
    read_frames [] 2 ((inorderMids 1 (p1 :: p2 :: ps)).map encP) =
      .error "ValueError: could not broadcast" :=
  ⟨read_frames_crashes p1 p2 ps 1 (by norm_num) h1 h2,
   read_frames_crashes p1 p2 ps 2 (by norm_num) h1 h2⟩

theorem C4_chained_reads_crash_witness :
    read_frames [] 1 ((inorderMids 1 (List.replicate 728 2 ::
        List.replicate 728 3 :: [])).map encP) =
      .error "ValueError: could not broadcast" ∧
    read_frames [] 2 ((inorderMids 1 (List.replicate 728 2 ::
        List.replicate 728 3 :: [])).map encP) =
      .error "ValueError: could not broadcast" :=
  C4_chained_reads_crash (List.replicate 728 2) (List.replicate 728 3) []
    (by rw [List.length_replicate]; rfl) (by rw [List.length_replicate]; rfl)

end OpenRadar


namespace OpenRadar


lemma npSliceAssign_fail (buf src : List Nat) (i : Nat)
    (hgt : buf.length < (i + 1) * UINT16_IN_PACKET)
    (hsrc : src.length = UINT16_IN_PACKET) :
    npSliceAssign buf (i * UINT16_IN_PACKET) ((i + 1) * UINT16_IN_PACKET) src =
      .error "ValueError: could not broadcast" := by
  have hU : UINT16_IN_PACKET = 728 := rfl
  rw [hU] at hgt hsrc ⊢
  simp only [npSliceAssign]
  rw [if_neg (by omega)]
  match src, hsrc with
  | [], h => simp at h
  | [x], h => simp at h
  | x :: y :: rest, _ => rfl

lemma writeSlot_length (buf src : List Nat) (i : Nat)
    (hle : (i + 1) * UINT16_IN_PACKET ≤ buf.length)
    (hsrc : src.length = UINT16_IN_PACKET) :
    (writeSlot buf i src).length = buf.length := by
  have hU : UINT16_IN_PACKET = 728 := rfl
  rw [hU] at hle hsrc
  simp only [writeSlot, List.length_append, List.length_take, List.length_drop,
    hsrc, hU]
  omega

lemma getElem?_writeSlot (buf src : List Nat) (i k : Nat)
    (hle : (i + 1) * UINT16_IN_PACKET ≤ buf.length)
    (hsrc : src.length = UINT16_IN_PACKET) :
    (writeSlot buf i src)[k]? =
      if i * UINT16_IN_PACKET ≤ k ∧ k < (i + 1) * UINT16_IN_PACKET
      then src[k - i * UINT16_IN_PACKET]?
      else buf[k]? := by
  have hU : UINT16_IN_PACKET = 728 := rfl
  rw [hU] at hle hsrc ⊢
  have hT : (buf.take (i * 728)).length = i * 728 := by
    rw [List.length_take]
    omega
  have hTS : (buf.take (i * 728) ++ src).length = (i + 1) * 728 := by
    rw [List.length_append, hT, hsrc]
    omega
  simp only [writeSlot, hU]
  rcases Nat.lt_or_ge k (i * 728) with hk | hk
  · rw [List.getElem?_append_left (by rw [hTS]; omega),
      List.getElem?_append_left (by omega), List.getElem?_take, if_pos (by omega),
      if_neg (by omega)]
  · rcases Nat.lt_or_ge k ((i + 1) * 728) with hk2 | hk2
    · rw [List.getElem?_append_left (by rw [hTS]; omega),
        List.getElem?_append_right (by omega), hT, if_pos (by omega)]
    · rw [List.getElem?_append_right (by rw [hTS]; omega), hTS,
        List.getElem?_drop, if_neg (by omega)]
      congr 1
      omega

set_option maxRecDepth 4000 in
lemma writeSlot_comm (buf p q : List Nat) (i j : Nat) (hij : i ≠ j)
    (hi : (i + 1) * UINT16_IN_PACKET ≤ buf.length)
    (hj : (j + 1) * UINT16_IN_PACKET ≤ buf.length)
    (hp : p.length = UINT16_IN_PACKET) (hq : q.length = UINT16_IN_PACKET) :
    writeSlot (writeSlot buf i p) j q = writeSlot (writeSlot buf j q) i p := by
  have li := writeSlot_length buf p i hi hp
  have lj := writeSlot_length buf q j hj hq
  apply List.ext_getElem?
  intro k
  rw [getElem?_writeSlot _ _ _ _ (by rw [li]; exact hj) hq,
    getElem?_writeSlot _ _ _ _ hi hp,
    getElem?_writeSlot _ _ _ _ (by rw [lj]; exact hi) hp,
    getElem?_writeSlot _ _ _ _ hj hq]
  have hU : UINT16_IN_PACKET = 728 := rfl
  rw [hU] at hi hj hp hq ⊢
  split_ifs <;> first | rfl | (exfalso; omega)


lemma accumStep_snd (st : List Nat × Int) (p : RawPacket) :
    (accumStep st p).2 =
      if st.2 + 1 > (PACKETS_IN_FRAME_CLIPPED : Int) then 0 else st.2 + 1 := rfl

lemma accumStep_fst (st : List Nat × Int) (p : RawPacket)
    (hp : p.packetData.length = UINT16_IN_PACKET) :
    (accumStep st p).1 =
      if (midSlot p + 1) * UINT16_IN_PACKET ≤ st.1.length
      then writeSlot st.1 (midSlot p) p.packetData
      else st.1 := by
  simp only [accumStep, midSlot]
  by_cases hle : (((p.packetNum - 1) % (PACKETS_IN_FRAME_CLIPPED : Int)).toNat + 1) *
      UINT16_IN_PACKET ≤ st.1.length
  · rw [npSliceAssign_ok _ _ _ hle hp, if_pos hle]
    rfl
  · rw [npSliceAssign_fail _ _ _ (by omega) hp, if_neg hle]

lemma accumStep_fst_length (st : List Nat × Int) (p : RawPacket)
    (hp : p.packetData.length = UINT16_IN_PACKET) :
    (accumStep st p).1.length = st.1.length := by
  rw [accumStep_fst st p hp]
  split
  · exact writeSlot_length _ _ _ (by assumption) hp
  · rfl

set_option maxRecDepth 8000 in
lemma accumStep_comm (x y : RawPacket)
    (hx : x.packetData.length = UINT16_IN_PACKET)
    (hy : y.packetData.length = UINT16_IN_PACKET)
    (hxy : midSlot x ≠ midSlot y ∨ x = y) :
    ∀ z, accumStep (accumStep z x) y = accumStep (accumStep z y) x := by
  intro z
  rcases hxy with hne | rfl
  case inr => rfl
  have hsd : (accumStep (accumStep z x) y).2 = (accumStep (accumStep z y) x).2 := rfl
  refine Prod.ext ?_ hsd
  rw [accumStep_fst (accumStep z x) y hy, accumStep_fst (accumStep z y) x hx,
    accumStep_fst_length z x hx, accumStep_fst_length z y hy,
    accumStep_fst z x hx, accumStep_fst z y hy]
  split_ifs <;>
    first
      | rfl
      | exact writeSlot_comm z.1 x.packetData y.packetData _ _ hne (by assumption)
          (by assumption) hx hy

lemma read_accum_cons_mid (p : RawPacket) (hwf : wfPacket p)
    (hna : p.byteCount % BYTES_IN_FRAME_CLIPPED ≠ 0)
    (buf : List Nat) (pr : Int) (rest : List (List Nat)) :
    read_accum buf pr (encP p :: rest) =
      read_accum (accumStep (buf, pr) p).1 (accumStep (buf, pr) p).2 rest := by
  obtain ⟨h1, h2, h3⟩ := hwf
  conv_lhs => rw [read_accum]
  rw [read_data_packet_encP p h1 h2 h3]
  simp only
  rw [if_neg hna]
  rfl

lemma read_accum_fold : ∀ (mids : List RawPacket),
    (∀ p ∈ mids, wfPacket p ∧ p.byteCount % BYTES_IN_FRAME_CLIPPED ≠ 0) →
    ∀ (buf : List Nat) (pr : Int) (rest : List (List Nat)),
    read_accum buf pr (mids.map encP ++ rest) =
      read_accum (List.foldl accumStep (buf, pr) mids).1
        (List.foldl accumStep (buf, pr) mids).2 rest
  | [], _, buf, pr, rest => rfl
  | m :: mids, h, buf, pr, rest => by
    simp only [List.map_cons, List.cons_append, List.foldl_cons]
    rw [read_accum_cons_mid m (h m (by simp)).1 (h m (by simp)).2,
      read_accum_fold mids (fun p hp => h p (by simp [hp])) _ _ rest]

lemma read_seek_skip : ∀ (mids : List RawPacket),
    (∀ p ∈ mids, wfPacket p ∧ p.byteCount % BYTES_IN_FRAME_CLIPPED ≠ 0) →
    ∀ rest, read_seek (mids.map encP ++ rest) = read_seek rest
  | [], _, _ => rfl
  | m :: mids, h, rest => by
    have hm := h m (by simp)
    simp only [List.map_cons, List.cons_append]
    conv_lhs => rw [read_seek]
    rw [read_data_packet_encP m hm.1.1 hm.1.2.1 hm.1.2.2]
    simp only
    rw [if_neg hm.2]
    exact read_seek_skip mids (fun p hp => h p (by simp [hp])) rest

lemma foldl_accumStep_perm (m1 m2 : List RawPacket) (hperm : m1.Perm m2)
    (hlen : ∀ p ∈ m1, p.packetData.length = UINT16_IN_PACKET)
    (hpw : m1.Pairwise (fun a b => midSlot a ≠ midSlot b)) (z : List Nat × Int) :
    List.foldl accumStep z m1 = List.foldl accumStep z m2 := by
  refine hperm.foldl_eq' ?_ z
  intro x hx y hy w
  by_cases hxy : x = y
  · subst hxy
    rfl
  · exact accumStep_comm x y (hlen x hx) (hlen y hy)
      (Or.inl (List.Pairwise.forall (fun a b hab => hab.symm) hpw hx hy hxy)) w

/-- C5 amended: the delivery order of the well-formed mid-frame packets
(full 728-word payloads, byte counters in range and not frame-aligned,
pairwise distinct destination slots) between the first datagram and the
final datagram can be permuted without changing the result of the
single-frame read; packets delivered before the frame-aligned packet are
discarded, so only permutations of this segment are tolerated. -/
theorem C5_reordering_amended (mids1 mids2 : List RawPacket) (d0 bnd : List Nat)
    (hperm : mids1.Perm mids2) (hwf : ∀ p ∈ mids1, wfMid p)
    (hpw : mids1.Pairwise (fun a b => midSlot a ≠ midSlot b)) :
    read (d0 :: mids1.map encP ++ [bnd]) = read (d0 :: mids2.map encP ++ [bnd]) := by
  have hwf2 : ∀ p ∈ mids2, wfMid p := fun p hp => hwf p (hperm.mem_iff.mpr hp)
  have hmid1 : ∀ p ∈ mids1, wfPacket p ∧ p.byteCount % BYTES_IN_FRAME_CLIPPED ≠ 0 :=
    fun p hp => ⟨(hwf p hp).1, (hwf p hp).2.2⟩
  have hmid2 : ∀ p ∈ mids2, wfPacket p ∧ p.byteCount % BYTES_IN_FRAME_CLIPPED ≠ 0 :=
    fun p hp => ⟨(hwf2 p hp).1, (hwf2 p hp).2.2⟩
  have hlen1 : ∀ p ∈ mids1, p.packetData.length = UINT16_IN_PACKET :=
    fun p hp => (hwf p hp).2.1
  unfold read
  simp only [read_seek, List.append_eq]
  cases hd : read_data_packet d0 with
  | error e => rfl
  | ok p0 =>
    simp only
    by_cases hal : p0.byteCount % BYTES_IN_FRAME_CLIPPED = 0
    · rw [if_pos hal, if_pos hal]
      simp only
      cases hw : npSliceAssign (List.replicate UINT16_IN_FRAME 0) 0 UINT16_IN_PACKET
          p0.packetData with
      | error e => rfl
      | ok rf =>
        simp only
        rw [read_accum_fold mids1 hmid1 rf 1 [bnd],
          read_accum_fold mids2 hmid2 rf 1 [bnd],
          foldl_accumStep_perm mids1 mids2 hperm hlen1 hpw (rf, 1)]
    · rw [if_neg hal, if_neg hal]
      rw [read_seek_skip mids1 hmid1 [bnd], read_seek_skip mids2 hmid2 [bnd]]


lemma inorderMids_append : ∀ (i : Nat) (xs ys : List (List Nat)),
    inorderMids i (xs ++ ys) = inorderMids i xs ++ inorderMids (i + xs.length) ys
  | _, [], ys => by simp [inorderMids]
  | i, x :: xs, ys => by
    simp only [List.cons_append, inorderMids, List.append_eq,
      inorderMids_append (i + 1) xs ys, List.length_cons]
    rw [show i + (xs.length + 1) = i + 1 + xs.length by omega]

lemma inorderMids_wfMid : ∀ (i : Nat) (ps : List (List Nat)),
    1 ≤ i → i + ps.length ≤ PACKETS_IN_FRAME_CLIPPED →
    (∀ p ∈ ps, p.length = UINT16_IN_PACKET) →
    ∀ q ∈ inorderMids i ps, wfMid q
  | _, [], _, _, _ => by simp [inorderMids]
  | i, p :: ps, hi1, hile, hlen => by
    have hP : PACKETS_IN_FRAME_CLIPPED = 360 := rfl
    rw [hP] at hile
    simp only [List.length_cons] at hile
    intro q hq
    simp only [inorderMids, List.mem_cons] at hq
    rcases hq with rfl | hq
    · refine ⟨⟨by norm_num; omega, ?_, ?_⟩, hlen p (by simp), ?_⟩
      · show ((i : Int) + 1) < 2 ^ 31
        norm_num
        omega
      · show i * BYTES_IN_PACKET < 2 ^ 48
        have hB : BYTES_IN_PACKET = 1456 := rfl
        rw [hB]
        norm_num
        omega
      · show i * BYTES_IN_PACKET % BYTES_IN_FRAME_CLIPPED ≠ 0
        have hB : BYTES_IN_PACKET = 1456 := rfl
        have hC : BYTES_IN_FRAME_CLIPPED = 524160 := rfl
        rw [hB, hC, Nat.mod_eq_of_lt (by omega)]
        omega
    · exact inorderMids_wfMid (i + 1) ps (by omega) (by rw [hP]; omega) (fun r hr => hlen r (by simp [hr])) q hq

lemma wfMid_mid (q : RawPacket) (h : wfMid q) :
    wfPacket q ∧ q.byteCount % BYTES_IN_FRAME_CLIPPED ≠ 0 := ⟨h.1, h.2.2⟩

lemma flatten_replicate_replicate (n m : Nat) (a : Nat) :
    (List.replicate n (List.replicate m a)).flatten = List.replicate (n * m) a := by
  induction n with
  | zero => simp
  | succ n ih =>
    rw [List.replicate_succ, List.flatten_cons, ih, Nat.succ_mul, Nat.add_comm,
      List.replicate_add]

set_option maxRecDepth 8000 in
lemma foldl_inorder : ∀ (ps : List (List Nat)) (i : Nat) (pre : List Nat) (m : Nat)
    (pr : Int),
    (∀ p ∈ ps, p.length = UINT16_IN_PACKET) →
    pre.length = i * UINT16_IN_PACKET →
    ps.length * UINT16_IN_PACKET ≤ m →
    i + ps.length ≤ PACKETS_IN_FRAME_CLIPPED →
    0 ≤ pr → pr + ps.length ≤ (PACKETS_IN_FRAME_CLIPPED : Int) →
    List.foldl accumStep (pre ++ List.replicate m 0, pr) (inorderMids i ps) =
      (pre ++ ps.flatten ++ List.replicate (m - ps.length * UINT16_IN_PACKET) 0,
        pr + ps.length)
  | [], i, pre, m, pr, _, _, _, _, _, _ => by
    simp [inorderMids, List.append_assoc]
  | p :: ps, i, pre, m, pr, hlen, hpre, hm, hi, hpr0, hpr => by
    have hU : UINT16_IN_PACKET = 728 := rfl
    have hP : PACKETS_IN_FRAME_CLIPPED = 360 := rfl
    have hplen : p.length = 728 := by rw [← hU]; exact hlen p (by simp)
    have hUm : 728 ≤ m := by
      rw [hU] at hm
      simp only [List.length_cons] at hm
      omega
    have hi360 : i < 360 := by
      rw [hP] at hi
      simp only [List.length_cons] at hi
      omega
    simp only [inorderMids, List.foldl_cons]
    have hslot : midSlot ⟨(i : Int) + 1, i * BYTES_IN_PACKET, p⟩ = i := by
      simp only [midSlot, hP]
      omega
    have hstep : accumStep (pre ++ List.replicate m 0, pr)
        ⟨(i : Int) + 1, i * BYTES_IN_PACKET, p⟩ =
        ((pre ++ p) ++ List.replicate (m - 728) 0, pr + 1) := by
      have hbl : (pre ++ List.replicate m 0).length = i * 728 + m := by
        rw [List.length_append, List.length_replicate, hpre, hU]
      have hf := accumStep_fst (pre ++ List.replicate m 0, pr)
        ⟨(i : Int) + 1, i * BYTES_IN_PACKET, p⟩ (by rw [← hU] at hplen; exact hplen)
      rw [hslot] at hf
      rw [if_pos (by rw [hbl, hU]; omega)] at hf
      have hs := accumStep_snd (pre ++ List.replicate m 0, pr)
        ⟨(i : Int) + 1, i * BYTES_IN_PACKET, p⟩
      rw [if_neg (by
        rw [hP] at hpr ⊢
        simp only [List.length_cons] at hpr
        push_cast at hpr ⊢
        omega)] at hs
      refine Prod.ext ?_ hs
      rw [hf]
      show writeSlot (pre ++ List.replicate m 0) i p = _
      simp only [writeSlot, hU]
      have htake : List.take (i * 728) (pre ++ List.replicate m (0:Nat)) = pre := by
        rw [show i * 728 = pre.length by rw [hpre, hU], List.take_left]
      have hdrop : List.drop ((i + 1) * 728) (pre ++ List.replicate m (0:Nat)) =
          List.replicate (m - 728) 0 := by
        rw [show (i + 1) * 728 = pre.length + 728 by rw [hpre, hU]; ring,
          List.drop_append, List.drop_replicate]
      rw [htake, hdrop]
    rw [hstep, foldl_inorder ps (i + 1) (pre ++ p) (m - 728) (pr + 1)
      (fun r hr => hlen r (by simp [hr]))
      (by rw [List.length_append, hpre, hplen, hU]; ring)
      (by rw [hU] at hm ⊢; simp only [List.length_cons] at hm; omega)
      (by rw [hP] at hi ⊢; simp only [List.length_cons] at hi; omega)
      (by omega)
      (by rw [hP] at hpr ⊢; simp only [List.length_cons] at hpr; push_cast at hpr ⊢; omega)]
    simp only [List.flatten_cons, List.length_cons]
    rw [← List.append_assoc]
    refine Prod.ext ?_ (by push_cast; ring)
    rw [show (m - 728) - ps.length * UINT16_IN_PACKET =
      m - (ps.length + 1) * UINT16_IN_PACKET by rw [hU]; omega]


set_option maxRecDepth 8000 in
lemma read_inorder (ps : List (List Nat)) (pb : List Nat)
    (h360 : ps.length = PACKETS_IN_FRAME_CLIPPED)
    (hlen : ∀ p ∈ ps, p.length = UINT16_IN_PACKET) :
    read ((inorderMids 0 (ps ++ [pb])).map encP) =
      .ok (ps.flatten ++ List.replicate 64 0, -1) := by
  have hU : UINT16_IN_PACKET = 728 := rfl
  have hF : UINT16_IN_FRAME = 262144 := rfl
  have hP : PACKETS_IN_FRAME_CLIPPED = 360 := rfl
  cases ps with
  | nil => rw [hP] at h360; simp at h360
  | cons p0 ps1 =>
    have hlen0 : p0.length = 728 := by rw [← hU]; exact hlen p0 (by simp)
    have h359 : ps1.length = 359 := by
      rw [hP] at h360
      simp only [List.length_cons] at h360
      omega
    have hq0 := read_data_packet_encP ⟨1, 0, p0⟩ (by norm_num) (by norm_num)
      (by norm_num)
    have hbnd := read_data_packet_encP ⟨361, 524160, pb⟩ (by norm_num) (by norm_num)
      (by norm_num)
    have hpre := npSliceAssign_ok (List.replicate 262144 0) p0 0
      (by rw [List.length_replicate, hU]; omega) (by rw [hU]; exact hlen0)
    simp only [Nat.zero_mul, Nat.zero_add, Nat.one_mul, zero_add, one_mul, zero_mul,
      List.take_zero, List.nil_append, List.drop_replicate, hU] at hpre
    simp only [List.cons_append, inorderMids, List.map_cons]
    unfold read
    simp only [read_seek, List.append_eq]
    norm_num
    simp only [hq0]
    rw [if_pos (Nat.zero_mod _)]
    simp only [hF, hU, hpre]
    norm_num
    rw [inorderMids_append 1 ps1 [pb], h359]
    have hB : BYTES_IN_PACKET = 1456 := rfl
    simp only [inorderMids, hB]
    norm_num
    rw [read_accum_fold (inorderMids 1 ps1)
      (fun q hq => wfMid_mid q (inorderMids_wfMid 1 ps1 (by norm_num)
        (by rw [hP]; omega) (fun r hr => hlen r (by simp [hr])) q hq))]
    rw [foldl_inorder ps1 1 p0 261416 1 (fun r hr => hlen r (by simp [hr]))
      (by rw [hlen0, hU]) (by rw [h359, hU]; norm_num)
      (by rw [h359, hP]) (by norm_num) (by rw [h359, hP]; push_cast)]
    simp only [h359, hU]
    norm_num
    conv_lhs => rw [read_accum]
    simp only [hbnd]
    have hC : BYTES_IN_FRAME_CLIPPED = 524160 := rfl
    rw [if_pos (by rw [hC])]
    rw [hP]
    norm_num




lemma C1ps_length : C1ps.length = PACKETS_IN_FRAME_CLIPPED := by
  unfold C1ps
  rw [List.length_replicate]
  rfl

lemma C1ps_mem_length : ∀ p ∈ C1ps, p.length = UINT16_IN_PACKET := by
  intro p hp
  unfold C1ps at hp
  rw [List.eq_of_mem_replicate hp, List.length_replicate]
  rfl

/-- C1 amended: feeding the single-frame read a synthetic in-order stream
(sequence numbers from 1, byte counters from 0 incrementing by exactly
`BYTES_IN_PACKET`, no packet missing) of 360 full payloads followed by
the next frame-aligned packet returns a FrameBuffer equal to the
concatenation of the 360 payloads padded with 64 zero words (the buffer
is allocated at `UINT16_IN_FRAME` words, larger than the clipped frame),
and the loss counter equals `-1`, not 0, because the terminating
frame-aligned packet is also counted in `packets_read`. -/
theorem C1_no_loss_read_amended (ps : List (List Nat)) (pb : List Nat)
    (h360 : ps.length = PACKETS_IN_FRAME_CLIPPED)
    (hlen : ∀ p ∈ ps, p.length = UINT16_IN_PACKET) :
    read ((inorderMids 0 (ps ++ [pb])).map encP) =
      .ok (ps.flatten ++ List.replicate 64 0, -1) :=
  read_inorder ps pb h360 hlen

/-- Witness for the C1 amended theorem at a concrete all-ones stream. -/
theorem C1_no_loss_read_amended_witness :
    read ((inorderMids 0 (C1ps ++ [[]])).map encP) =
      .ok (C1ps.flatten ++ List.replicate 64 0, -1) :=
  C1_no_loss_read_amended C1ps [] C1ps_length C1ps_mem_length

/-- C1 counterexample: on the concrete zero-loss in-order stream of 360
all-ones payloads, the single-frame read does not return the bare payload
concatenation with loss counter 0 as the claim states; it returns the
padded buffer with loss counter `-1`. -/
theorem C1_counterexample :
    read C1stream = .ok (C1ps.flatten ++ List.replicate 64 0, -1) ∧
    read C1stream ≠ .ok (C1ps.flatten, 0) := by
  have h1 : read C1stream = .ok (C1ps.flatten ++ List.replicate 64 0, -1) := by
    unfold C1stream
    exact read_inorder C1ps [] C1ps_length C1ps_mem_length
  refine ⟨h1, ?_⟩
  rw [h1]
  intro h
  simp only [Except.ok.injEq, Prod.mk.injEq] at h
  exact absurd h.2 (by norm_num)

/-- C7 counterexample: prepending an undersized 3-byte datagram to a
stream that the single-frame read would otherwise reassemble makes the
read return a struct unpack error instead of dropping the datagram and
continuing, so the receive loop crashes rather than continuing. -/
theorem C7_counterexample :
    read ([1, 2, 3] :: C1stream) =
      .error "struct.error: unpack requires a buffer of 4 bytes" ∧
    read C1stream = .ok (C1ps.flatten ++ List.replicate 64 0, -1) := by
  constructor
  · rfl
  · unfold C1stream
    exact read_inorder C1ps [] C1ps_length C1ps_mem_length











lemma C5ps_length : C5ps.length = PACKETS_IN_FRAME_CLIPPED := by
  simp only [C5ps, C5rest, List.length_cons, List.length_replicate]
  rfl

lemma C5ps_mem_length : ∀ p ∈ C5ps, p.length = UINT16_IN_PACKET := by
  intro p hp
  simp only [C5ps, C5pay0, C5pay1, C5rest, List.mem_cons, List.mem_replicate] at hp
  rcases hp with rfl | rfl | ⟨_, rfl⟩ <;> (rw [List.length_replicate]; rfl)

lemma C5s1_eq : (inorderMids 0 (C5ps ++ [[]])).map encP = C5s1 := by
  have h2 : inorderMids 0 (C5ps ++ [[]]) =
      ⟨1, 0, C5pay0⟩ :: ⟨2, BYTES_IN_PACKET, C5pay1⟩ ::
        inorderMids 2 (C5rest ++ [[]]) := by
    show inorderMids 0 (C5pay0 :: C5pay1 :: (C5rest ++ [[]])) = _
    rw [inorderMids, inorderMids]
    rw [show ((0 : Nat) : Int) + 1 = 1 by norm_num,
      show ((0 : Nat) + 1 : Nat) = 1 by norm_num,
      show ((1 : Nat) : Int) + 1 = 2 by norm_num,
      show (0 : Nat) * BYTES_IN_PACKET = 0 from rfl,
      show (1 : Nat) * BYTES_IN_PACKET = BYTES_IN_PACKET by rw [Nat.one_mul]]
  rw [h2]
  rfl

lemma C5rest_flatten : C5rest.flatten = List.replicate 260624 0 := by
  rw [C5rest, flatten_replicate_replicate]

lemma C5rest_mem_length : ∀ p ∈ C5rest, p.length = UINT16_IN_PACKET := by
  intro r hr
  rw [C5rest] at hr
  rw [List.eq_of_mem_replicate hr, List.length_replicate]
  rfl

lemma read_eq (stream : List (List Nat)) : read stream =
    match read_seek stream with
    | .error e => .error e
    | .ok (p, rest) =>
      match npSliceAssign (List.replicate UINT16_IN_FRAME 0) 0 UINT16_IN_PACKET
          p.packetData with
      | .error e => .error e
      | .ok ret_frame => read_accum ret_frame 1 rest := rfl

set_option maxRecDepth 8000 in
lemma read_inorder_swapped (pay0 pay1 pb : List Nat) (rest : List (List Nat))
    (h0 : pay0.length = UINT16_IN_PACKET) (h358 : rest.length = 358)
    (hlen : ∀ p ∈ rest, p.length = UINT16_IN_PACKET) :
    read (encP ⟨2, 1456, pay1⟩ :: encP ⟨1, 0, pay0⟩ ::
        (inorderMids 2 (rest ++ [pb])).map encP) =
      .ok ((pay0 ++ List.replicate 728 0) ++ rest.flatten ++
        List.replicate 64 0, 0) := by
  have hU : UINT16_IN_PACKET = 728 := rfl
  have hP : PACKETS_IN_FRAME_CLIPPED = 360 := rfl
  have hC : BYTES_IN_FRAME_CLIPPED = 524160 := rfl
  have hF : UINT16_IN_FRAME = 262144 := rfl
  have hq1 := read_data_packet_encP ⟨2, 1456, pay1⟩ (by norm_num) (by norm_num)
    (by norm_num)
  have hq0 := read_data_packet_encP ⟨1, 0, pay0⟩ (by norm_num) (by norm_num)
    (by norm_num)
  have hbnd := read_data_packet_encP ⟨361, 524160, pb⟩ (by norm_num) (by norm_num)
    (by norm_num)
  have hpre := npSliceAssign_ok (List.replicate 262144 0) pay0 0
    (by rw [List.length_replicate, hU]; omega) h0
  simp only [Nat.zero_mul, zero_add, one_mul, zero_mul, List.take_zero,
    List.nil_append, List.drop_replicate, hU] at hpre
  have hmids : inorderMids 2 (rest ++ [pb]) =
      inorderMids 2 rest ++ [⟨361, 524160, pb⟩] := by
    rw [inorderMids_append 2 rest [pb], h358]
    congr 1
  rw [read_eq]
  conv_lhs => rw [read_seek]
  simp only [hq1]
  rw [if_neg (by rw [hC]; norm_num)]
  conv_lhs => rw [read_seek]
  simp only [hq0]
  rw [if_pos (Nat.zero_mod _)]
  simp only [hF, hU, hpre]
  norm_num
  rw [show pay0 ++ List.replicate 261416 (0 : Nat) =
      (pay0 ++ List.replicate 728 0) ++ List.replicate 260688 0 by
    rw [List.append_assoc, ← List.replicate_add]]
  rw [hmids, List.map_append]
  simp only [List.map_cons, List.map_nil]
  rw [read_accum_fold (inorderMids 2 rest)
    (fun q hq => wfMid_mid q (inorderMids_wfMid 2 rest (by norm_num)
      (by rw [hP, h358]) hlen q hq))]
  rw [foldl_inorder rest 2 (pay0 ++ List.replicate 728 0) 260688 1 hlen
    (by rw [List.length_append, h0, List.length_replicate, hU])
    (by rw [h358, hU]; norm_num)
    (by rw [h358, hP]) (by norm_num) (by rw [h358, hP]; push_cast)]
  simp only [h358, hU]
  norm_num
  conv_lhs => rw [read_accum]
  simp only [hbnd]
  rw [if_pos (by rw [hC])]
  rw [hP]
  norm_num

lemma read_C5s2 : read C5s2 = .ok (List.replicate 262144 0, 0) := by
  have h := read_inorder_swapped C5pay0 C5pay1 [] C5rest
    (by rw [C5pay0, List.length_replicate]; rfl)
    (by rw [C5rest, List.length_replicate]) C5rest_mem_length
  have hstream : C5s2 = encP ⟨2, 1456, C5pay1⟩ :: encP ⟨1, 0, C5pay0⟩ ::
      (inorderMids 2 (C5rest ++ [[]])).map encP := rfl
  have hbuf : (C5pay0 ++ List.replicate 728 0) ++ C5rest.flatten ++
      List.replicate 64 (0 : Nat) = List.replicate 262144 0 := by
    rw [C5pay0, C5rest_flatten]
    simp only [← List.replicate_add]
  rw [hstream, h, hbuf]

/-- C5 counterexample: swapping the delivery order of the first two
packets of an in-order stream (moving a non-aligned packet in front of
the frame-aligned one) is a permutation of the stream, yet the
single-frame read reconstructs a different FrameBuffer: the early packet
is discarded while seeking alignment and its slot stays zero. -/
theorem C5_counterexample :
    C5s1.Perm C5s2 ∧
    read C5s1 = .ok (C5ps.flatten ++ List.replicate 64 0, -1) ∧
    read C5s2 = .ok (List.replicate 262144 0, 0) ∧
    C5ps.flatten ++ List.replicate 64 0 ≠ List.replicate 262144 0 := by
  refine ⟨List.Perm.swap C5d1 C5d0 C5ds, ?_, read_C5s2, ?_⟩
  · rw [← C5s1_eq]
    exact read_inorder C5ps [] C5ps_length C5ps_mem_length
  · intro h
    have hflat : C5ps.flatten = C5pay0 ++ (C5pay1 ++ List.replicate 260624 0) := by
      simp only [C5ps, List.flatten_cons, C5rest_flatten]
    have hL : ((C5pay0 ++ (C5pay1 ++ List.replicate 260624 0)) ++
        List.replicate 64 (0 : Nat))[728]? = some 1 := by
      rw [List.getElem?_append_left (by
        simp only [C5pay0, C5pay1, List.length_append, List.length_replicate]
        norm_num)]
      rw [List.getElem?_append_right (by
        simp only [C5pay0, List.length_replicate]
        exact le_rfl)]
      simp only [C5pay0, C5pay1, List.length_replicate]
      rw [List.getElem?_append_left (by rw [List.length_replicate]; omega)]
      rw [List.getElem?_replicate]
      norm_num
    rw [hflat] at h
    rw [h] at hL
    rw [List.getElem?_replicate] at hL
    simp at hL


/-- Witness for the C5 amended theorem: swapping two concrete mid-frame
packets leaves the read result unchanged. -/
theorem C5_reordering_amended_witness :
    read ([] :: [(⟨2, 1456, List.replicate 728 0⟩ : RawPacket),
        ⟨3, 2912, List.replicate 728 1⟩].map encP ++ [[]]) =
      read ([] :: [(⟨3, 2912, List.replicate 728 1⟩ : RawPacket),
        ⟨2, 1456, List.replicate 728 0⟩].map encP ++ [[]]) :=
  C5_reordering_amended
    [⟨2, 1456, List.replicate 728 0⟩, ⟨3, 2912, List.replicate 728 1⟩]
    [⟨3, 2912, List.replicate 728 1⟩, ⟨2, 1456, List.replicate 728 0⟩]
    [] [] (List.Perm.swap _ _ [])
    (by
      intro p hp
      simp only [List.mem_cons, List.not_mem_nil, or_false] at hp
      rcases hp with rfl | rfl <;>
        exact ⟨⟨by norm_num, by norm_num, by norm_num⟩,
          by rw [List.length_replicate]; rfl, by decide⟩)
    (by
      refine List.Pairwise.cons ?_ (List.Pairwise.cons ?_ List.Pairwise.nil)
      · intro b hb
        simp only [List.mem_cons, List.not_mem_nil, or_false] at hb
        subst hb
        decide
      · intro b hb
        simp at hb)

end OpenRadar
